import Mathlib

/-!
Shallow embedding of the kuasar wasm shim's process-lifecycle engine
(src/wasm/src/wasmedge.rs) and of the vmm sandbox control service
(src/vmm/task/src/sandbox_service.rs), together with theorems settling
the specification claims about them.

External collaborators (the wasmedge VM, netlink handle, cgroups, the OS
monitor channel, syscalls) are modelled as explicit parameters or oracle
arguments; machine-integer casts are modelled with explicit modular
arithmetic on Int.
-/

namespace Kuasar

/-- Process lifecycle states, from containerd's task `Status` as used by
`ProcessTemplate` (`p.state`): CREATED before start, RUNNING after a
successful start, STOPPED once exited. -/
inductive Status where
  | unknown
  | created
  | running
  | stopped
  deriving DecidableEq

/-- Error kinds of `containerd_shim::error::Error` that the embedded code
constructs: `Error::InvalidArgument`, `Error::Unimplemented`, and the
catch-all `other!`/`other_error!` kind. -/
inductive Error where
  | invalidArgument (msg : String)
  | unimplemented (msg : String)
  | other (msg : String)
  deriving DecidableEq

/-- `oci_spec::runtime::LinuxResources`: opaque here, because both `update`
implementations ignore their `_resources` argument entirely. -/
abbrev LinuxResources := Unit

/-- `cgroups metrics`: opaque here, only produced by external collectors. -/
abbrev Metrics := Unit

/-- `ProcessInfo` returned by `ps`: carries the native pid. -/
structure ProcessInfo where
  pid : Int
  deriving DecidableEq

/-- `InitProcess = ProcessTemplate<WasmEdgeInitLifecycle>`, restricted to the
fields the embedded operations read or write: the lifecycle state `p.state`,
the native pid `p.pid`, and the rootfs declared in the OCI spec of
`p.lifecycle.spec` (the value `get_rootfs(spec)` returns, `none` when the
spec declares no root). -/
structure InitProcess where
  state : Status
  pid : Int
  rootfs : Option String
  deriving DecidableEq

/-- `ExecProcess = ProcessTemplate<WasmEdgeExecLifecycle>`: the exec
lifecycle never reads its process argument, so only state and pid are kept. -/
structure ExecProcess where
  state : Status
  pid : Int
  deriving DecidableEq

/-- `ExecProcessRequest`: opaque request payload, never inspected by
`ExecFactory::create`. -/
structure ExecProcessRequest where
  execId : String
  deriving DecidableEq

/-- `WasmEdgeInitLifecycle::start` (wasmedge.rs lines 154-243), parent path.
After reading args/envs it checks `get_rootfs(spec)` and fails with
`InvalidArgument` when the spec has no rootfs; otherwise it forks.
`forkResult = none` models `fork()` failing (no child created);
`forkResult = some child` models the parent arm of a successful fork, which
unconditionally sets `p.state = RUNNING` and `p.pid = child`.  The `Nat` in
the result counts native child processes created by this call (forks), so
that multiple invocations can be compared.  No state guard of any kind is
present in the source. -/
def WasmEdgeInitLifecycle.start (p : InitProcess) (forkResult : Option Int) :
    Except Error (InitProcess × Nat) :=
  match p.rootfs with
  | none => .error (.invalidArgument "rootfs is not set in runtime spec")
  | some _ =>
    match forkResult with
    | none => .error (.other "failed to fork process")
    | some child => .ok ({ p with state := Status.running, pid := child }, 1)

/-- The `signal as i32` cast in `Signal::try_from(signal as i32)`:
a `u32` value reinterpreted as a two's-complement `i32`. -/
def u32_as_i32 (n : Nat) : Int :=
  if n < 2 ^ 31 then (n : Int) else (n : Int) - 2 ^ 32

/-- Models `nix::sys::signal::Signal::try_from(i32)` on Linux: the nix
`Signal` enum covers exactly the classic signals 1..=31; every other value
(0, negatives, 32 and above) yields `Err`, modelled as `none`. -/
def signal_try_from (s : Int) : Option Int :=
  if 1 ≤ s ∧ s ≤ 31 then some s else none

/-- Result of the embedded `kill`: `ok p delivered` returns `Ok(())` with the
process left as `p` and `delivered` recording the `(pid, signal)` the OS
`kill(2)` call was issued with (`none` when no signal was sent); `err` is the
mapped syscall failure; `panicked` is the `.unwrap()` panic on an invalid
signal conversion. -/
inductive KillResult where
  | ok (p : InitProcess) (delivered : Option (Int × Int))
  | err (msg : String)
  | panicked
  deriving DecidableEq

/-- `WasmEdgeInitLifecycle::kill` (wasmedge.rs lines 245-261): only when
`p.state == Status::RUNNING && p.pid > 0` does it convert the signal with
`Signal::try_from(signal as i32).unwrap()` (panicking on failure) and issue
the OS kill (whose success is the external oracle `osKillOk`); otherwise it
returns `Ok(())` without touching the process. -/
def WasmEdgeInitLifecycle.kill (osKillOk : Bool) (p : InitProcess)
    (signal : Nat) (_all : Bool) : KillResult :=
  if p.state = Status.running ∧ p.pid > 0 then
    match signal_try_from (u32_as_i32 signal) with
    | some sig => if osKillOk then .ok p (some (p.pid, sig)) else .err "failed to kill process"
    | none => .panicked
  else .ok p none

/-- `WasmEdgeInitLifecycle::update` (wasmedge.rs lines 279-287): it ignores
the process and the resources and unconditionally returns
`Err(Error::Unimplemented("exec not supported for wasm containers"))`. -/
def WasmEdgeInitLifecycle.update (_p : InitProcess) (_resources : LinuxResources) :
    Except Error Unit :=
  .error (.unimplemented "exec not supported for wasm containers")

/-- `WasmEdgeExecLifecycle::start` (wasmedge.rs lines 312-316). -/
def WasmEdgeExecLifecycle.start (_p : ExecProcess) : Except Error Unit :=
  .error (.unimplemented "exec not supported for wasm containers")

/-- `WasmEdgeExecLifecycle::kill` (wasmedge.rs lines 318-327). -/
def WasmEdgeExecLifecycle.kill (_p : ExecProcess) (_signal : Nat) (_all : Bool) :
    Except Error Unit :=
  .error (.unimplemented "exec not supported for wasm containers")

/-- `WasmEdgeExecLifecycle::update` (wasmedge.rs lines 333-341). -/
def WasmEdgeExecLifecycle.update (_p : ExecProcess) (_resources : LinuxResources) :
    Except Error Unit :=
  .error (.unimplemented "exec not supported for wasm containers")

/-- `WasmEdgeExecLifecycle::stats` (wasmedge.rs lines 343-347). -/
def WasmEdgeExecLifecycle.stats (_p : ExecProcess) : Except Error Metrics :=
  .error (.unimplemented "exec not supported for wasm containers")

/-- `WasmEdgeExecLifecycle::ps` (wasmedge.rs lines 349-353). -/
def WasmEdgeExecLifecycle.ps (_p : ExecProcess) : Except Error (List ProcessInfo) :=
  .error (.unimplemented "exec not supported for wasm containers")

/-- `ExecFactory::create` (wasmedge.rs lines 356-363). -/
def ExecFactory.create (_req : ExecProcessRequest) : Except Error ExecProcess :=
  .error (.unimplemented "exec not supported for wasm containers")

/-- `RunError` (wasmedge.rs lines 379-385), the launcher child's failure
categories.  The payloads of the first two variants are never read by
`to_exit_code`, so they are dropped; `sys` keeps the raw errno as an Int. -/
inductive RunError where
  | wasmEdge
  | io
  | noRootInSpec
  | noModule
  | sys (e : Int)
  deriving DecidableEq

/-- `RunError::to_exit_code` (wasmedge.rs lines 388-396). -/
def RunError.to_exit_code : RunError → Int
  | .wasmEdge => -100
  | .io => -101
  | .noRootInSpec => -102
  | .noModule => -103
  | .sys e => -e

/-- The child arm of `start` (wasmedge.rs lines 235-239): `exit(0)` when
`run_wasi_func` succeeds, `exit(e.to_exit_code())` on failure. -/
def child_exit_code : Except RunError Unit → Int
  | .ok _ => 0
  | .error e => e.to_exit_code

/-- A process as seen by the exit-monitor scan: its native pid and the
exited marking that `set_exited(exit_code)` (from the shared shim framework)
performs — the exited flag and the recorded exit code. -/
structure TrackedProcess where
  pid : Int
  exited : Bool
  exitCode : Int
  deriving DecidableEq

/-- A `WasmEdgeContainer` as seen by the exit-monitor scan: its init process
and its exec-process mapping (values only; the exec ids are never read). -/
structure Container where
  init : TrackedProcess
  processes : List TrackedProcess
  deriving DecidableEq

/-- `set_exited(exit_code)` from the shim framework: records the exit code
and marks the process exited. -/
def set_exited (code : Int) (p : TrackedProcess) : TrackedProcess :=
  { p with exited := true, exitCode := code }

/-- The inner loop of `process_exits` (wasmedge.rs lines 480-486): scan the
container's exec processes, `set_exited` on the first one whose pid matches,
then `break` (the rest of this container's list is left untouched).  The Nat
counts `set_exited` calls performed. -/
def mark_exec_processes (pid code : Int) : List TrackedProcess → List TrackedProcess × Nat
  | [] => ([], 0)
  | p :: rest =>
    if p.pid = pid then (set_exited code p :: rest, 1)
    else ((p :: (mark_exec_processes pid code rest).1), (mark_exec_processes pid code rest).2)

/-- The container loop of `process_exits` (wasmedge.rs lines 471-487) for one
exit notification `{pid, code}`: for each container, if the init process's
pid matches, `set_exited` on the init and `break` out of the container loop
(later containers are not scanned); otherwise run the exec scan of that
container and continue with the next container — the inner `break` does not
stop the container loop.  The Nat counts `set_exited` calls performed. -/
def process_exits_scan (pid code : Int) : List Container → List Container × Nat
  | [] => ([], 0)
  | c :: rest =>
    if c.init.pid = pid then
      ({ c with init := set_exited code c.init } :: rest, 1)
    else
      (({ c with processes := (mark_exec_processes pid code c.processes).1 } ::
          (process_exits_scan pid code rest).1),
        (mark_exec_processes pid code c.processes).2 + (process_exits_scan pid code rest).2)

/-- Number of exec processes in the list whose pid is `pid`. -/
def execCount (pid : Int) : List TrackedProcess → Nat
  | [] => 0
  | p :: rest => (if p.pid = pid then 1 else 0) + execCount pid rest

/-- Number of tracked processes (inits and execs of all containers) whose
pid is `pid`. -/
def trackedCount (pid : Int) : List Container → Nat
  | [] => 0
  | c :: rest =>
    (if c.init.pid = pid then 1 else 0) + execCount pid c.processes + trackedCount pid rest

/-- `SyncClockPacket` restricted to the fields `sync_clock` reads or writes:
`Delta` (an i64, nanoseconds), `ClientArriveTime` and `ServerSendTime`. -/
structure SyncClockPacket where
  Delta : Int
  ClientArriveTime : Int
  ServerSendTime : Int
  deriving DecidableEq

/-- `SandboxService::sync_clock` (sandbox_service.rs lines 156-181), with
the CLOCK_REALTIME wall clock modelled as the nanosecond value `now` (both
`clock_gettime` reads of the zero-delta arm happen at the same modelled
instant; the spec itself brackets out drift during the call).  Returns the
clock value after the call together with the response packet.
Delta zero: no `clock_settime`, the response is the request with
`ClientArriveTime` and `ServerSendTime` set to the current read.
Delta nonzero: the response is the request unchanged and the clock is set to
`now + Duration::from_nanos(Delta as u64)` — the i64→u64 cast is
`Delta % 2^64` (equal to `Delta` only when `Delta ≥ 0`). -/
def SandboxService.sync_clock (now : Int) (req : SyncClockPacket) :
    Int × SyncClockPacket :=
  if req.Delta = 0 then
    (now, { req with ClientArriveTime := now, ServerSendTime := now })
  else
    (now + req.Delta % 2 ^ 64, req)

/-- The network-mutating collaborator calls `setup_sandbox` can perform, in
the order the handler invokes them. -/
inductive NetEffect where
  | bootstrap
  | applyInterfaces
  | applyRoutes
  deriving DecidableEq

/-- ttrpc status codes used by the service (only NOT_FOUND is constructed). -/
inductive RpcCode where
  | notFound
  deriving DecidableEq

/-- ttrpc-level errors the service returns: `ttrpc::Error::RpcStatus` with a
code and message, and `ttrpc::Error::Others` (which also models shim errors
propagated through `?`). -/
inductive RpcError where
  | rpcStatus (code : RpcCode) (msg : String)
  | others (msg : String)
  deriving DecidableEq

/-- `SandboxService::setup_sandbox` (sandbox_service.rs lines 102-138).
The external collaborators are oracles: `decodeErr` is the
`serde_json::from_slice::<PodSandboxConfig>` failure message (none = the
payload decodes), and `bootErr`/`ifaceErr`/`routeErr` are the errors of
`setup_sandbox(&config)`, `update_interfaces` and `update_routes` (none =
success).  The result is the list of collaborator calls performed, in
order, together with the returned error if any.  Only the type tag
`"PodSandboxConfig"` is recognized; any other tag returns a NOT_FOUND
status naming the tag, before any collaborator is invoked. -/
def SandboxService.setup_sandbox (decodeErr : Option String)
    (bootErr ifaceErr routeErr : Option RpcError) (typeUrl : String) :
    List NetEffect × Option RpcError :=
  if typeUrl = "PodSandboxConfig" then
    match decodeErr with
    | some e => ([], some (RpcError.others ("convert PodSandboxConfig failed: " ++ e)))
    | none =>
      match bootErr with
      | some er => ([NetEffect.bootstrap], some er)
      | none =>
        match ifaceErr with
        | some er => ([NetEffect.bootstrap, NetEffect.applyInterfaces], some er)
        | none =>
          match routeErr with
          | some er =>
            ([NetEffect.bootstrap, NetEffect.applyInterfaces, NetEffect.applyRoutes], some er)
          | none =>
            ([NetEffect.bootstrap, NetEffect.applyInterfaces, NetEffect.applyRoutes], none)
  else
    ([], some (RpcError.rpcStatus RpcCode.notFound
        ("SetUpSandbox/config/" ++ typeUrl ++ " is not supported")))

/-- Index of the first occurrence of `a` in the trace, if any. -/
def firstIdx (a : NetEffect) : List NetEffect → Option Nat
  | [] => none
  | x :: rest => if x = a then some 0 else (firstIdx a rest).map (· + 1)

/-- `beforeB a b l` holds when every occurrence of `b` in the trace `l` is
preceded by an occurrence of `a` (vacuously when `b` does not occur). -/
def beforeB (a b : NetEffect) (l : List NetEffect) : Bool :=
  match firstIdx b l with
  | none => true
  | some j =>
    match firstIdx a l with
    | none => false
    | some i => i < j

/-- `TASK_OOM_EVENT_TOPIC` from containerd's runtime event topics, the one
topic `get_events` forwards. -/
def TASK_OOM_EVENT_TOPIC : String := "/tasks/oom"

/-- The event `Envelope` the service builds: protobuf message fields, with
message-typed fields (`timestamp`, `event`) optional — `none` models the
unset/default field of a freshly created envelope, and the setters store
`some`.  The event payload is abstracted to a Nat identifier, carried
through `convert_to_any` unchanged. -/
structure Envelope where
  timestamp : Option Int
  namespace_ : String
  topic : String
  event : Option Nat
  deriving DecidableEq

/-- `SandboxService::get_events` (sandbox_service.rs lines 183-201).  The
event channel is modelled as the list of `(topic, event)` pairs it will
deliver before closing; `now` is the `SystemTime::now()` read and `ns` the
service's namespace.  Events whose topic is not `TASK_OOM_EVENT_TOPIC` are
received and discarded; the first OOM-topic event is returned wrapped in an
envelope; if the channel closes first, the call fails with
`ttrpc::Error::Others("internal")`. -/
def SandboxService.get_events (now : Int) (ns : String) :
    List (String × Nat) → Except RpcError Envelope
  | [] => .error (.others "internal")
  | (topic, ev) :: rest =>
    if topic = TASK_OOM_EVENT_TOPIC then
      .ok { timestamp := some now, namespace_ := ns, topic := topic, event := some ev }
    else SandboxService.get_events now ns rest

/-- C1 (counterexample): the claim says `update` on an init process in
RUNNING state applies the resource limits and does not fail with an
Unimplemented kind; on the concrete running init process with pid 7 the
embedded `WasmEdgeInitLifecycle::update` nevertheless returns exactly the
Unimplemented error. -/
theorem update_running_init_unimplemented_cex :
    WasmEdgeInitLifecycle.update ⟨Status.running, 7, some "/rootfs"⟩ () =
      Except.error (Error.unimplemented "exec not supported for wasm containers") := rfl

/-- C1 (amended): `update` fails with an Unimplemented kind for every init
process (no resource limits are ever applied to any control group), exactly
as it does for every exec process. -/
theorem update_unimplemented_for_init_and_exec :
    ∀ (p : InitProcess) (q : ExecProcess) (r s : LinuxResources),
      WasmEdgeInitLifecycle.update p r =
        Except.error (Error.unimplemented "exec not supported for wasm containers") ∧
      WasmEdgeExecLifecycle.update q s =
        Except.error (Error.unimplemented "exec not supported for wasm containers") := by
  intro p q r s
  exact ⟨rfl, rfl⟩

/-- C2: evaluation of `sync_clock` at the inputs that decide the claim.
With the wall clock at 0 ns and `Delta = -1`, the code sets the system clock
to `2^64 - 1` nanoseconds (the i64→u64 cast of `-1`), not to `0 + (-1)` as
the claim states; with `Delta = 0` the clock is untouched and the response
carries the two wall-clock reads; with the positive `Delta = 3` the clock is
set to `5 + 3` and the request is echoed back unchanged. -/
theorem sync_clock_negative_delta_divergence :
    (SandboxService.sync_clock 0 ⟨-1, 0, 0⟩).1 = 2 ^ 64 - 1 ∧
    (SandboxService.sync_clock 0 ⟨-1, 0, 0⟩).1 ≠ 0 + (-1) ∧
    SandboxService.sync_clock 5 ⟨0, 0, 0⟩ = (5, ⟨0, 5, 5⟩) ∧
    SandboxService.sync_clock 5 ⟨3, 0, 0⟩ = (8, ⟨3, 0, 0⟩) := by
  refine ⟨by decide, by decide, rfl, by decide⟩

/-- C5 (counterexample): the claim says a second `start` on an
already-RUNNING process fails or is a no-op and never forks a second native
process; on the concrete init process already RUNNING with pid 7, a second
`start` succeeds, forks again (fork count 1 in this call too) and changes
the pid to the new child 8 — neither a failure nor a no-op. -/
theorem double_start_forks_again_cex :
    WasmEdgeInitLifecycle.start ⟨Status.created, 0, some "/rootfs"⟩ (some 7) =
      Except.ok (⟨Status.running, 7, some "/rootfs"⟩, 1) ∧
    WasmEdgeInitLifecycle.start ⟨Status.running, 7, some "/rootfs"⟩ (some 8) =
      Except.ok (⟨Status.running, 8, some "/rootfs"⟩, 1) ∧
    (⟨Status.running, 8, some "/rootfs"⟩ : InitProcess) ≠
      ⟨Status.running, 7, some "/rootfs"⟩ := by
  refine ⟨rfl, rfl, by decide⟩

/-- C5 (amended): `start` performs no state guard: every call on an init
process whose spec declares a rootfs, with a succeeding fork, forks exactly
one new native process and sets the state to RUNNING and the pid to the new
child, regardless of the prior state — so at-most-once CREATED→RUNNING is
not enforced by this function and must come from its caller. -/
theorem start_no_state_guard :
    ∀ (p : InitProcess) (child : Int), p.rootfs ≠ none →
      WasmEdgeInitLifecycle.start p (some child) =
        Except.ok ({ p with state := Status.running, pid := child }, 1) := by
  intro p child h
  obtain ⟨r, hr⟩ := Option.ne_none_iff_exists'.mp h
  simp [WasmEdgeInitLifecycle.start, hr]

/-- Witness for C5's amended theorem: on the concrete already-RUNNING
process with pid 7, `start` with fork result 8 again returns RUNNING with
pid 8 and one more fork. -/
theorem start_no_state_guard_witness :
    WasmEdgeInitLifecycle.start ⟨Status.running, 7, some "/rootfs"⟩ (some 8) =
      Except.ok (⟨Status.running, 8, some "/rootfs"⟩, 1) :=
  start_no_state_guard ⟨Status.running, 7, some "/rootfs"⟩ 8 (by decide)

/-- C6: for every init process whose state is not RUNNING or whose native
pid is not positive, and for every signal value and `all` flag (and whatever
the OS kill syscall would do), `kill` returns success with the process
unchanged and no signal delivered. -/
theorem kill_non_running_noop :
    ∀ (osKillOk : Bool) (p : InitProcess) (signal : Nat) (all : Bool),
      ¬(p.state = Status.running ∧ p.pid > 0) →
      WasmEdgeInitLifecycle.kill osKillOk p signal all = KillResult.ok p none := by
  intro ok p s a h
  simp [WasmEdgeInitLifecycle.kill, h]

/-- Witness for C6: killing a CREATED process with pid 0 and signal 9 is a
successful no-op. -/
theorem kill_non_running_noop_witness :
    WasmEdgeInitLifecycle.kill true ⟨Status.created, 0, some "/rootfs"⟩ 9 false =
      KillResult.ok ⟨Status.created, 0, some "/rootfs"⟩ none :=
  kill_non_running_noop true ⟨Status.created, 0, some "/rootfs"⟩ 9 false (by decide)

/-- C8: on exec processes of a wasm container, each of create, start, kill,
update, stats and ps fails immediately with the Unimplemented-kind error,
for all inputs. -/
theorem exec_ops_unimplemented :
    ∀ (req : ExecProcessRequest) (p : ExecProcess) (signal : Nat) (all : Bool)
      (res : LinuxResources),
      ExecFactory.create req =
        Except.error (Error.unimplemented "exec not supported for wasm containers") ∧
      WasmEdgeExecLifecycle.start p =
        Except.error (Error.unimplemented "exec not supported for wasm containers") ∧
      WasmEdgeExecLifecycle.kill p signal all =
        Except.error (Error.unimplemented "exec not supported for wasm containers") ∧
      WasmEdgeExecLifecycle.update p res =
        Except.error (Error.unimplemented "exec not supported for wasm containers") ∧
      WasmEdgeExecLifecycle.stats p =
        Except.error (Error.unimplemented "exec not supported for wasm containers") ∧
      WasmEdgeExecLifecycle.ps p =
        Except.error (Error.unimplemented "exec not supported for wasm containers") := by
  intro req p signal all res
  exact ⟨rfl, rfl, rfl, rfl, rfl, rfl⟩

/-- C10: for every init process in RUNNING state with positive pid, calling
`kill` with a signal value whose i32 reinterpretation is not a valid OS
signal panics (the `Signal::try_from(..).unwrap()`), rather than returning
an error — for any outcome the OS kill syscall would have had. -/
theorem kill_invalid_signal_panics :
    ∀ (osKillOk : Bool) (p : InitProcess) (signal : Nat) (all : Bool),
      p.state = Status.running → p.pid > 0 →
      signal_try_from (u32_as_i32 signal) = none →
      WasmEdgeInitLifecycle.kill osKillOk p signal all = KillResult.panicked := by
  intro ok p s a h1 h2 h3
  simp [WasmEdgeInitLifecycle.kill, h1, h2, h3]

/-- Witness for C10: the error branch of the signal conversion is reachable
from the public kill interface — killing a RUNNING process with pid 7 using
signal 0 (not a valid OS signal) panics. -/
theorem kill_invalid_signal_panics_witness :
    WasmEdgeInitLifecycle.kill true ⟨Status.running, 7, some "/rootfs"⟩ 0 false =
      KillResult.panicked :=
  kill_invalid_signal_panics true ⟨Status.running, 7, some "/rootfs"⟩ 0 false
    rfl (by decide) (by decide)

/-- C4 (counterexample): the claim says distinct failure categories map to
distinct exit codes; the OS-error category at the real Linux errno 100
(ENETDOWN) yields `-100`, the same exit code as the engine-failure
category, although the two categories are distinct. -/
theorem exit_code_collision_cex :
    RunError.to_exit_code (RunError.sys 100) = RunError.to_exit_code RunError.wasmEdge ∧
    RunError.sys 100 ≠ RunError.wasmEdge := by
  refine ⟨rfl, by decide⟩

/-- C4 (amended): the four fixed failure categories carry the distinct
nonzero codes -100 (engine), -101 (I/O), -102 (missing root path), -103
(missing entry module); an OS error exits with the negated raw errno, which
is nonzero for every positive errno but may coincide with a fixed
category's code (as at errno 100); the child exits 0 exactly on success,
provided OS errnos are positive. -/
theorem exit_codes_amended :
    (RunError.to_exit_code RunError.wasmEdge = -100 ∧
      RunError.to_exit_code RunError.io = -101 ∧
      RunError.to_exit_code RunError.noRootInSpec = -102 ∧
      RunError.to_exit_code RunError.noModule = -103) ∧
    (∀ e : Int, RunError.to_exit_code (RunError.sys e) = -e) ∧
    (∀ e : Int, 0 < e → RunError.to_exit_code (RunError.sys e) ≠ 0) ∧
    (∀ r : Except RunError Unit,
      (∀ e : Int, r = Except.error (RunError.sys e) → 0 < e) →
      (child_exit_code r = 0 ↔ r = Except.ok ())) := by
  refine ⟨⟨rfl, rfl, rfl, rfl⟩, fun e => rfl, fun e he => by simp [RunError.to_exit_code]; omega, ?_⟩
  intro r h
  match r with
  | .ok u => cases u; simp [child_exit_code]
  | .error er =>
    cases er with
    | wasmEdge => simp [child_exit_code, RunError.to_exit_code]
    | io => simp [child_exit_code, RunError.to_exit_code]
    | noRootInSpec => simp [child_exit_code, RunError.to_exit_code]
    | noModule => simp [child_exit_code, RunError.to_exit_code]
    | sys e =>
      have he : 0 < e := h e rfl
      simp [child_exit_code, RunError.to_exit_code]
      omega

/-- Witness for C4's amended theorem: a child failing with the OS error at
errno 7 does not exit 0. -/
theorem exit_codes_amended_witness :
    child_exit_code (Except.error (RunError.sys 7)) ≠ 0 := by
  intro hzero
  have h := (exit_codes_amended.2.2.2 (Except.error (RunError.sys 7))
    (by intro e he; injection he with h1; injection h1 with h2; omega)).mp hzero
  exact Except.noConfusion h

/-- C7: `setup_sandbox` with a config type tag other than
`"PodSandboxConfig"` returns the NOT_FOUND status naming the tag, and
performs no collaborator call at all (in particular no interface and no
route application); for every request, in the trace of collaborator calls
actually performed every interface application is preceded by the sandbox
bootstrap and every route application by the interface application. -/
theorem setup_sandbox_typed_dispatch :
    ∀ (de : Option String) (be ie re : Option RpcError) (url : String),
      (url ≠ "PodSandboxConfig" →
        SandboxService.setup_sandbox de be ie re url =
          ([], some (RpcError.rpcStatus RpcCode.notFound
            ("SetUpSandbox/config/" ++ url ++ " is not supported")))) ∧
      beforeB NetEffect.bootstrap NetEffect.applyInterfaces
        (SandboxService.setup_sandbox de be ie re url).1 = true ∧
      beforeB NetEffect.applyInterfaces NetEffect.applyRoutes
        (SandboxService.setup_sandbox de be ie re url).1 = true := by
  intro de be ie re url
  by_cases h : url = "PodSandboxConfig"
  · subst h
    refine ⟨fun hne => absurd rfl hne, ?_, ?_⟩ <;>
      cases de <;> cases be <;> cases ie <;> cases re <;> rfl
  · have htrace : SandboxService.setup_sandbox de be ie re url =
        ([], some (RpcError.rpcStatus RpcCode.notFound
          ("SetUpSandbox/config/" ++ url ++ " is not supported"))) := by
      simp [SandboxService.setup_sandbox, h]
    refine ⟨fun _ => htrace, ?_, ?_⟩ <;> rw [htrace] <;> rfl

/-- Witness for C7: the unrecognized tag "Bogus" yields the NOT_FOUND error
naming "Bogus" and an empty collaborator trace. -/
theorem setup_sandbox_typed_dispatch_witness :
    SandboxService.setup_sandbox none none none none "Bogus" =
      ([], some (RpcError.rpcStatus RpcCode.notFound
        "SetUpSandbox/config/Bogus is not supported")) := by
  have h := (setup_sandbox_typed_dispatch none none none none "Bogus").1 (by decide)
  exact h

/-- C9: for every channel content consisting of a prefix of non-OOM-topic
events followed by an OOM-topic event, `get_events` returns exactly that
first OOM event wrapped with a set (non-empty) timestamp, the sandbox's
namespace, the topic, and the payload, having read and discarded the
earlier events; and when the channel closes after delivering only
non-OOM-topic events, the call fails with the internal error. -/
theorem get_events_oom_filter :
    ∀ (now : Int) (ns : String) (pre rest : List (String × Nat)) (e : Nat),
      ((∀ x ∈ pre, x.1 ≠ TASK_OOM_EVENT_TOPIC) →
        SandboxService.get_events now ns (pre ++ (TASK_OOM_EVENT_TOPIC, e) :: rest) =
          Except.ok { timestamp := some now, namespace_ := ns,
                      topic := TASK_OOM_EVENT_TOPIC, event := some e } ∧
        ({ timestamp := some now, namespace_ := ns,
           topic := TASK_OOM_EVENT_TOPIC, event := some e } : Envelope).timestamp.isSome = true) ∧
      ((∀ x ∈ pre, x.1 ≠ TASK_OOM_EVENT_TOPIC) →
        SandboxService.get_events now ns pre = Except.error (RpcError.others "internal")) := by
  intro now ns pre rest e
  induction pre with
  | nil =>
    refine ⟨fun _ => ⟨?_, rfl⟩, fun _ => rfl⟩
    simp [SandboxService.get_events]
  | cons hd tl ih =>
    obtain ⟨t, v⟩ := hd
    constructor
    · intro h
      have ht : t ≠ TASK_OOM_EVENT_TOPIC := h (t, v) (List.mem_cons_self _ _)
      have htl : ∀ x ∈ tl, x.1 ≠ TASK_OOM_EVENT_TOPIC :=
        fun x hx => h x (List.mem_cons_of_mem _ hx)
      refine ⟨?_, rfl⟩
      show SandboxService.get_events now ns
          ((t, v) :: (tl ++ (TASK_OOM_EVENT_TOPIC, e) :: rest)) = _
      simp only [SandboxService.get_events, if_neg ht]
      exact (ih.1 htl).1
    · intro h
      have ht : t ≠ TASK_OOM_EVENT_TOPIC := h (t, v) (List.mem_cons_self _ _)
      have htl : ∀ x ∈ tl, x.1 ≠ TASK_OOM_EVENT_TOPIC :=
        fun x hx => h x (List.mem_cons_of_mem _ hx)
      show SandboxService.get_events now ns ((t, v) :: tl) = _
      simp only [SandboxService.get_events, if_neg ht]
      exact ih.2 htl

/-- Witness for C9: with one other-topic event followed by one OOM event on
the channel, the call returns only the latter, wrapped. -/
theorem get_events_oom_filter_witness :
    SandboxService.get_events 5 "test" [("/tasks/create", 1), ("/tasks/oom", 2)] =
      Except.ok { timestamp := some 5, namespace_ := "test",
                  topic := "/tasks/oom", event := some 2 } := by
  have h := (get_events_oom_filter 5 "test" [("/tasks/create", 1)] [] 2).1 (by decide)
  exact h.1

/-- The exec scan marks exactly one process when a matching pid is present
(it stops at the first match) and none otherwise. -/
theorem mark_exec_snd_eq (pid code : Int) (ps : List TrackedProcess) :
    (mark_exec_processes pid code ps).2 = min 1 (execCount pid ps) := by
  induction ps with
  | nil => rfl
  | cons p rest ih =>
    by_cases h : p.pid = pid
    · simp only [mark_exec_processes, execCount, if_pos h]
      omega
    · simp only [mark_exec_processes, execCount, if_neg h]
      omega

/-- When no exec process matches, the exec scan leaves the list unchanged. -/
theorem mark_exec_fst_of_zero (pid code : Int) (ps : List TrackedProcess)
    (h : execCount pid ps = 0) : (mark_exec_processes pid code ps).1 = ps := by
  induction ps with
  | nil => rfl
  | cons p rest ih =>
    by_cases hp : p.pid = pid
    · exfalso
      simp only [execCount, if_pos hp] at h
      omega
    · simp only [execCount, if_neg hp] at h
      simp only [mark_exec_processes, if_neg hp]
      rw [ih (by omega)]

/-- C3 (counterexample): the claim says exactly one tracked process is
marked per notification and that scanning stops once a match is found; with
pid 5 tracked twice — as an exec process of the first container and as the
init process of the second — the scan marks both (two `set_exited` calls),
because the exec-match break only leaves the inner loop. -/
theorem process_exits_two_marks_cex :
    (process_exits_scan 5 9
      [⟨⟨1, false, 0⟩, [⟨5, false, 0⟩]⟩, ⟨⟨5, false, 0⟩, []⟩]).2 = 2 := by decide

/-- C3 (amended): per notification, an init-process match stops the scan
entirely, while an exec-process match stops only that container's exec scan
and the scan continues over later containers — so when the pid is tracked
at most once across all live containers, exactly one process is marked when
the pid is tracked (and a pid matching no tracked process causes no state
change and no error); in general the number of processes marked never
exceeds the number of tracked processes carrying that pid. -/
theorem process_exits_scan_spec :
    ∀ (pid code : Int) (cs : List Container),
      (trackedCount pid cs = 0 → process_exits_scan pid code cs = (cs, 0)) ∧
      (trackedCount pid cs = 1 → (process_exits_scan pid code cs).2 = 1) ∧
      (process_exits_scan pid code cs).2 ≤ trackedCount pid cs := by
  intro pid code cs
  induction cs with
  | nil => exact ⟨fun _ => rfl, fun h0 => by simp [trackedCount] at h0, Nat.le_refl 0⟩
  | cons c rest ih =>
    obtain ⟨cinit, cprocs⟩ := c
    by_cases h : cinit.pid = pid
    · refine ⟨?_, ?_, ?_⟩
      · intro h0
        exfalso
        simp only [trackedCount, if_pos h] at h0
        omega
      · intro _
        simp [process_exits_scan, h]
      · have hm := mark_exec_snd_eq pid code cprocs
        have h3 := ih.2.2
        simp [process_exits_scan, trackedCount, h]
        omega
    · have hTC : trackedCount pid (⟨cinit, cprocs⟩ :: rest) =
          execCount pid cprocs + trackedCount pid rest := by
        simp [trackedCount, h]
      refine ⟨?_, ?_, ?_⟩
      · intro h0
        rw [hTC] at h0
        have hE : execCount pid cprocs = 0 := by omega
        have hR : trackedCount pid rest = 0 := by omega
        have hs := ih.1 hR
        have hm := mark_exec_snd_eq pid code cprocs
        simp [process_exits_scan, h, hs, mark_exec_fst_of_zero pid code cprocs hE, hm, hE]
      · intro h1
        rw [hTC] at h1
        have hm := mark_exec_snd_eq pid code cprocs
        rcases Nat.eq_zero_or_pos (execCount pid cprocs) with hE | hE
        · have hR : trackedCount pid rest = 1 := by omega
          have hs := ih.2.1 hR
          simp [process_exits_scan, h, hs, hm, hE]
        · have hE1 : execCount pid cprocs = 1 := by omega
          have hR : trackedCount pid rest = 0 := by omega
          have hs := ih.1 hR
          simp [process_exits_scan, h, hs, hm, hE1]
      · have hm := mark_exec_snd_eq pid code cprocs
        have h3 := ih.2.2
        simp only [process_exits_scan, if_neg h, hTC]
        omega

/-- Witness for C3's amended theorem: with pid 5 tracked exactly once (as
the single container's init), the scan marks exactly one process. -/
theorem process_exits_scan_spec_witness :
    (process_exits_scan 5 9 [⟨⟨5, false, 0⟩, []⟩]).2 = 1 :=
  (process_exits_scan_spec 5 9 [⟨⟨5, false, 0⟩, []⟩]).2.1 (by decide)

end Kuasar
